import Mathlib

/-!
Shallow embedding of the teapot server (`server.py`): the brewing-state store,
the sliding one-second traffic counter, and the `slash` request handler.
Python dictionaries are modelled as association lists, wall-clock time and the
outcome of the external notifier are explicit parameters, and the three
`multiprocessing` locks serialize their critical sections, so each handler call
is a pure state transition.
-/

namespace Teapot

/-- Python `dict` lookup `d[key]` / `key in d`, on an association list. -/
def dictGet {α β : Type} [DecidableEq α] (k : α) : List (α × β) → Option β
  | [] => none
  | (k', v) :: rest => if k' = k then some v else dictGet k rest

/-- Python `dict` upsert `d[key] = v`, on an association list: replaces the
first binding of `k`, or appends a new one. -/
def dictSet {α β : Type} [DecidableEq α] (k : α) (v : β) : List (α × β) → List (α × β)
  | [] => [(k, v)]
  | (k', v') :: rest => if k' = k then (k, v) :: rest else (k', v') :: dictSet k v rest

/-- `TEA_CONTENT_TYPE` from server.py line 32. -/
def TEA_CONTENT_TYPE : String := "message/teapot"

/-- `TEA_VARIANTS` from server.py lines 33-36. -/
def TEA_VARIANTS : List String := ["english-breakfast", "earl-grey"]

/-- `HIGH_TRAFFIC_VARIANT` from server.py line 37. -/
def HIGH_TRAFFIC_VARIANT : String := "earl-grey"

/-- `create_alternates` from server.py lines 43-47: the doubled braces in the
f-string are literal braces, so each element reads
`\x7b"/variant" \x7btype message/teapot\x7d\x7d`. -/
def create_alternates : String :=
  String.intercalate ", "
    (TEA_VARIANTS.map fun variant =>
      "\x7b\"/" ++ variant ++ "\" \x7btype " ++ TEA_CONTENT_TYPE ++ "\x7d\x7d")

/-- `TEA_ALTERNATES` from server.py line 50. -/
def TEA_ALTERNATES : String := create_alternates

/-- `get_request_key` from server.py lines 65-67: `request.match_dict.get('endpoint', '')`
defaults an absent endpoint to the empty string, and the f-string flattens the
pair into `remote_addr ++ "/" ++ endpoint`. -/
def get_request_key (remote_addr : String) (endpoint : Option String) : String :=
  remote_addr ++ "/" ++ endpoint.getD ""

/-- `POTS_BREWING`: request key to brewing flag. -/
abbrev Pots := List (String × Bool)

/-- one per-second counter map (`cur_second_counter`): request key to count. -/
abbrev PerSecond := List (String × Nat)

/-- `TRAFFIC`: integer second to per-second counter map. -/
abbrev TrafficMap := List (Nat × PerSecond)

/-- an inbound request, with the fields of the japronto request object that
`slash` reads: method, path endpoint (`match_dict`), `Content-Type` and `Email`
headers (absent header modelled as `none`; the code reads them with
`headers.get(name, '')`), body and client address. -/
structure Request where
  method : String
  endpoint : Option String
  contentType : Option String
  email : Option String
  body : String
  remote_addr : String
  deriving Repr, DecidableEq

/-- the shared mutable stores `POTS_BREWING` and `TRAFFIC`. -/
structure ServerState where
  pots : Pots
  traffic : TrafficMap
  deriving Repr, DecidableEq

/-- configuration the handler consumes: the `MIN_REQUESTS_COUNT` threshold and
the home-page content (external content provider). -/
structure Config where
  minRequestsCount : Nat
  homeHtml : String
  deriving Repr, DecidableEq

/-- a japronto response as `slash` builds it: status code, optional text body,
and headers. -/
structure Response where
  code : Nat
  text : Option String
  headers : List (String × String)
  deriving Repr, DecidableEq

/-- result of one handler call: the response, the shared state afterwards, and
whether the notifier (`email_client.send`) was invoked. -/
structure StepResult where
  resp : Response
  state : ServerState
  notifierCalled : Bool
  deriving Repr, DecidableEq

/-- `set_brewing_state` from server.py lines 70-71. -/
def set_brewing_state (req : Request) (brewing_state : Bool) (pots : Pots) : Pots :=
  dictSet (get_request_key req.remote_addr req.endpoint) brewing_state pots

/-- `get_brewing_state` from server.py lines 74-75: `POTS_BREWING.get(key, False)`. -/
def get_brewing_state (req : Request) (pots : Pots) : Bool :=
  (dictGet (get_request_key req.remote_addr req.endpoint) pots).getD false

/-- `increase_or_set` from server.py lines 78-89: under the increment lock,
read-modify-write `dict_obj[key]` (prior value + 1 if present, else `default`)
and return the written value.  The lock serializes the body, so it is a pure
function of the dictionary. -/
def increase_or_set (dict_obj : PerSecond) (key : String) (default : Nat) :
    Nat × PerSecond :=
  match dictGet key dict_obj with
  | some v => (v + 1, dictSet key (v + 1) dict_obj)
  | none => (default, dictSet key default dict_obj)

/-- a blocking `multiprocessing.Lock.acquire()` call, as on server.py line 97:
called with no arguments it waits until the lock is free and then returns
`True` — it never returns `False`, whether or not another caller currently
holds the lock (`otherHolds`).  A non-blocking attempt would be
`acquire(blocking=False)`, which the code does not use. -/
def lock_acquire_blocking (otherHolds : Bool) : Bool := true

/-- `increase_traffic_by_request` from server.py lines 92-119, for the current
second `cur` and the request's key.  `delLockBusy` says whether some other
caller holds `TRAFFIC_LOCK_DEL_SECOND` when this call reaches line 97; the
blocking `acquire()` there always succeeds, so the cleanup (delete every
bucket whose second is `< cur`) runs unconditionally.  Then the bucket for
`cur` is fetched or created and the key's counter incremented via
`increase_or_set` with default 1. -/
def increase_traffic_by_request (cur : Nat) (request_key : String) (delLockBusy : Bool)
    (t : TrafficMap) : Nat × TrafficMap :=
  let t1 := if lock_acquire_blocking delLockBusy then
      t.filter (fun b => decide (cur ≤ b.1))
    else t
  let bucket := (dictGet cur t1).getD []
  let r := increase_or_set bucket request_key 1
  (r.1, dictSet cur r.2 t1)

/-- the count stored for `key` in the bucket for second `cur` (0 if the bucket
or the key is absent). -/
def trafficCount (cur : Nat) (key : String) (t : TrafficMap) : Nat :=
  (dictGet key ((dictGet cur t).getD [])).getD 0

/-- `slash` from server.py lines 122-238: the full request handler.  `cur` is
`int(time.time())`, `delLockBusy` the cleanup-lock contention flag, and
`notifierOk` whether `email_client.send` returns normally (`false` = raises). -/
def slash (cfg : Config) (cur : Nat) (delLockBusy : Bool) (notifierOk : Bool)
    (req : Request) (σ : ServerState) : StepResult :=
  let endpoint := req.endpoint.getD ""
  if req.method = "GET" then
    ⟨⟨200, some cfg.homeHtml, [("Content-Type", "text/html")]⟩, σ, false⟩
  else if req.method = "BREW" then
    if endpoint = "" then
      ⟨⟨300, none, [("Alternates", TEA_ALTERNATES)]⟩, σ, false⟩
    else if endpoint ∈ TEA_VARIANTS then
      if req.contentType.getD "" ≠ TEA_CONTENT_TYPE then
        ⟨⟨400, none, [("Alternates", TEA_ALTERNATES)]⟩, σ, false⟩
      else
        let is_brewing := get_brewing_state req σ.pots
        if req.body = "start" then
          if is_brewing then
            ⟨⟨503, some "Pot is busy", []⟩, σ, false⟩
          else if endpoint = HIGH_TRAFFIC_VARIANT then
            let r := increase_traffic_by_request cur
              (get_request_key req.remote_addr req.endpoint) delLockBusy σ.traffic
            if r.1 < cfg.minRequestsCount then
              ⟨⟨424, some ("Traffic too low to brew \"" ++ endpoint ++ "\" tea: "
                  ++ toString r.1 ++ "/" ++ toString cfg.minRequestsCount), []⟩,
                ⟨σ.pots, r.2⟩, false⟩
            else
              ⟨⟨202, some "Brewing", []⟩,
                ⟨set_brewing_state req true σ.pots, r.2⟩, false⟩
          else
            ⟨⟨202, some "Brewing", []⟩,
              ⟨set_brewing_state req true σ.pots, σ.traffic⟩, false⟩
        else if req.body = "stop" then
          if !is_brewing then
            ⟨⟨400, some "No beverage is being brewed by this pot", []⟩, σ, false⟩
          else
            let client_email := req.email.getD ""
            if client_email = "" then
              ⟨⟨400, some "Please set \"Email\" header in your request to your email address",
                  []⟩, σ, false⟩
            else if notifierOk then
              ⟨⟨201, some "Finished", []⟩,
                ⟨set_brewing_state req false σ.pots, σ.traffic⟩, true⟩
            else
              ⟨⟨500, some "Something went wrong", []⟩, σ, true⟩
        else
          ⟨⟨400, none, []⟩, σ, false⟩
    else
      ⟨⟨503, some ("\"" ++ endpoint ++ "\" is not supported for this pot"), []⟩, σ, false⟩
  else
    ⟨⟨405, none, []⟩, σ, false⟩

/-- `n` successive `increment` calls on the same key within the same second:
the list of returned counts and the final traffic window. -/
def iterate_increments (cur : Nat) (key : String) (delLockBusy : Bool) :
    Nat → TrafficMap → List Nat × TrafficMap
  | 0, t => ([], t)
  | n + 1, t =>
    let r := increase_traffic_by_request cur key delLockBusy t
    let rest := iterate_increments cur key delLockBusy n r.2
    (r.1 :: rest.1, rest.2)

/-! Helper lemmas about the dictionary primitives. -/

theorem dictGet_dictSet_self {α β : Type} [DecidableEq α] (k : α) (v : β) :
    ∀ l : List (α × β), dictGet k (dictSet k v l) = some v := by
  intro l
  induction l with
  | nil => simp [dictGet, dictSet]
  | cons hd tl ih =>
    by_cases h : hd.1 = k
    · simp [dictGet, dictSet, h]
    · simpa [dictGet, dictSet, h] using ih

theorem dictGet_dictSet_ne {α β : Type} [DecidableEq α] {k k' : α} (v : β)
    (h : k' ≠ k) : ∀ l : List (α × β), dictGet k (dictSet k' v l) = dictGet k l := by
  intro l
  induction l with
  | nil => simp [dictGet, dictSet, h]
  | cons hd tl ih =>
    by_cases h1 : hd.1 = k'
    · simp [dictGet, dictSet, h1, h]
    · by_cases h2 : hd.1 = k <;> simp [dictGet, dictSet, h1, h2, Ne.symm h, ih]

theorem mem_dictSet {α β : Type} [DecidableEq α] {k : α} {v : β} :
    ∀ {l : List (α × β)} {b : α × β}, b ∈ dictSet k v l → b = (k, v) ∨ b ∈ l := by
  intro l
  induction l with
  | nil => intro b hb; simp [dictSet] at hb; exact Or.inl hb
  | cons hd tl ih =>
    intro b hb
    by_cases h : hd.1 = k
    · simp only [dictSet, h, if_pos rfl] at hb
      rcases List.mem_cons.mp hb with h1 | h1
      · exact Or.inl h1
      · exact Or.inr (List.mem_cons_of_mem _ h1)
    · simp only [dictSet, if_neg h] at hb
      rcases List.mem_cons.mp hb with h1 | h1
      · exact Or.inr (h1 ▸ List.mem_cons_self _ _)
      · rcases ih h1 with h2 | h2
        · exact Or.inl h2
        · exact Or.inr (List.mem_cons_of_mem _ h2)

theorem dictGet_filter_ge {β : Type} (cur : Nat) : ∀ l : List (Nat × β),
    dictGet cur (l.filter fun b => decide (cur ≤ b.1)) = dictGet cur l := by
  intro l
  induction l with
  | nil => simp [dictGet]
  | cons hd tl ih =>
    by_cases h : hd.1 = cur
    · simp [List.filter_cons, dictGet, h]
    · by_cases hp : cur ≤ hd.1 <;> simp [List.filter_cons, dictGet, h, hp, ih]

/-! Helper lemmas about one `increment` call. -/

theorem increase_or_set_fst (d : PerSecond) (key : String) :
    (increase_or_set d key 1).1 = (dictGet key d).getD 0 + 1 := by
  unfold increase_or_set
  cases h : dictGet key d <;> simp [h]

theorem increase_or_set_get (d : PerSecond) (key : String) :
    dictGet key (increase_or_set d key 1).2 = some ((dictGet key d).getD 0 + 1) := by
  unfold increase_or_set
  cases h : dictGet key d <;> simp [h, dictGet_dictSet_self]

/-- one `increment` call returns the key's previous in-second count plus one. -/
theorem increase_traffic_fst (cur : Nat) (key : String) (busy : Bool) (t : TrafficMap) :
    (increase_traffic_by_request cur key busy t).1 = trafficCount cur key t + 1 := by
  unfold increase_traffic_by_request trafficCount lock_acquire_blocking
  simp only [if_pos]
  rw [dictGet_filter_ge]
  exact increase_or_set_fst _ _

/-- one `increment` call bumps the key's stored in-second count by one. -/
theorem increase_traffic_count (cur : Nat) (key : String) (busy : Bool) (t : TrafficMap) :
    trafficCount cur key (increase_traffic_by_request cur key busy t).2
      = trafficCount cur key t + 1 := by
  unfold increase_traffic_by_request trafficCount lock_acquire_blocking
  simp only [if_pos]
  rw [dictGet_dictSet_self]
  rw [dictGet_filter_ge]
  simp [increase_or_set_get]

/-- cleanup inside `increment`: every bucket of the resulting window is for the
current second or later, whether or not the deletion lock was contended. -/
theorem increase_traffic_buckets_ge (cur : Nat) (key : String) (busy : Bool)
    (t : TrafficMap) :
    ∀ b ∈ (increase_traffic_by_request cur key busy t).2, cur ≤ b.1 := by
  unfold increase_traffic_by_request lock_acquire_blocking
  simp only [if_pos]
  intro b hb
  rcases mem_dictSet hb with h | h
  · simp [h]
  · have := (List.mem_filter.mp h).2
    simpa using this

/-- successive increments on one key in one second return consecutive counts
starting just above the key's current in-second count. -/
theorem iterate_increments_eq_range (cur : Nat) (key : String) (busy : Bool) :
    ∀ (n : Nat) (t : TrafficMap),
    (iterate_increments cur key busy n t).1
      = List.range' (trafficCount cur key t + 1) n := by
  intro n
  induction n with
  | zero => intro t; simp [iterate_increments]
  | succ n ih =>
    intro t
    simp only [iterate_increments]
    rw [List.range'_succ, ih, increase_traffic_fst, increase_traffic_count]

/-- C1: for every N calls to the traffic counter's increment operation with the
same request key within the same wall-clock second (starting from a window in
which that key has no count yet for that second), the values returned across
the N calls are exactly `1, …, N`: the list of returns is `[1, …, N]`, it has
no duplicates, and a value is returned iff it lies in `{1, …, N}`. -/
theorem increment_same_key_same_second_returns_one_to_N
    (cur : Nat) (key : String) (busy : Bool) (N : Nat) (t : TrafficMap)
    (h : trafficCount cur key t = 0) :
    (iterate_increments cur key busy N t).1 = List.range' 1 N ∧
    (iterate_increments cur key busy N t).1.Nodup ∧
    (∀ v, v ∈ (iterate_increments cur key busy N t).1 ↔ 1 ≤ v ∧ v ≤ N) := by
  have hr : (iterate_increments cur key busy N t).1 = List.range' 1 N := by
    rw [iterate_increments_eq_range, h]
  refine ⟨hr, ?_, ?_⟩
  · rw [hr]; exact List.nodup_range' 1 N
  · intro v; rw [hr, List.mem_range'_1]; omega

/-- witness for C1: three increments on a fresh key at second 7 return
exactly `[1, 2, 3]`. -/
theorem increment_same_key_same_second_returns_one_to_N_witness :
    (iterate_increments 7 "1.2.3.4/earl-grey" false 3 []).1 = List.range' 1 3 :=
  (increment_same_key_same_second_returns_one_to_N 7 "1.2.3.4/earl-grey" false 3 [] rfl).1

/-- C3: after any completed increment call, the traffic window has no bucket
for a second strictly before the call's current second; and if the window's
second keys were duplicate-free and none exceeded the current second (time has
advanced past all but the latest bucket), the resulting window is exactly one
bucket, for the current second. -/
theorem increment_evicts_stale_buckets (cur : Nat) (key : String) (busy : Bool)
    (t : TrafficMap) :
    (∀ b ∈ (increase_traffic_by_request cur key busy t).2, cur ≤ b.1) ∧
    ((t.map Prod.fst).Nodup → (∀ b ∈ t, b.1 ≤ cur) →
      ∃ pc, (increase_traffic_by_request cur key busy t).2 = [(cur, pc)]) := by
  refine ⟨increase_traffic_buckets_ge cur key busy t, ?_⟩
  intro hnd hle
  have ht1 : ∀ b ∈ (t.filter fun b => decide (cur ≤ b.1)), b.1 = cur := by
    intro b hb
    have h1 := List.mem_filter.mp hb
    exact le_antisymm (hle b h1.1) (by simpa using h1.2)
  have hnd1 : ((t.filter fun b => decide (cur ≤ b.1)).map Prod.fst).Nodup :=
    List.Nodup.sublist (List.Sublist.map _ (List.filter_sublist t)) hnd
  unfold increase_traffic_by_request lock_acquire_blocking
  simp only [if_pos]
  generalize hgen : t.filter (fun b => decide (cur ≤ b.1)) = t1
  rw [hgen] at ht1 hnd1
  cases t1 with
  | nil => exact ⟨_, rfl⟩
  | cons hd rest =>
    obtain ⟨k, v⟩ := hd
    have hhd : k = cur := ht1 (k, v) (List.mem_cons_self _ _)
    subst hhd
    cases rest with
    | nil =>
      refine ⟨(increase_or_set ((dictGet k [(k, v)]).getD []) key 1).2, ?_⟩
      simp [dictSet]
    | cons hd2 rest2 =>
      exfalso
      have h2 : hd2.1 = k := ht1 hd2 (by simp)
      simp only [List.map_cons, List.nodup_cons] at hnd1
      exact hnd1.1 (by rw [← h2]; exact List.mem_cons_self _ _)

/-- witness for C3: an increment at second 12 on a window holding seconds 10
and 11 leaves exactly the one bucket for second 12. -/
theorem increment_evicts_stale_buckets_witness :
    ∃ pc, (increase_traffic_by_request 12 "k" false
      [(10, [("k", 5)]), (11, [("j", 2)])]).2 = [(12, pc)] :=
  (increment_evicts_stale_buckets 12 "k" false [(10, [("k", 5)]), (11, [("j", 2)])]).2
    (by decide) (by decide)

/-- C7 (against the code as written): the deletion-lock guard on server.py
line 97 is a blocking `acquire()` that always returns `True`, so the cleanup
phase is performed by every caller even when another caller already holds the
cleanup lock — a contended call behaves identically to an uncontended one and
still evicts stale buckets, instead of skipping cleanup as the comment above
it intends. -/
theorem increment_cleanup_never_skipped :
    (∀ cur key t, increase_traffic_by_request cur key true t
        = increase_traffic_by_request cur key false t) ∧
    lock_acquire_blocking true = true ∧
    (increase_traffic_by_request 5 "k" true [(3, [("k", 9)])]).2 = [(5, [("k", 1)])] :=
  ⟨fun _ _ _ => rfl, rfl, by decide⟩

/-! Helper lemmas about the `slash` handler. -/

theorem variant_ne_empty : ∀ v ∈ TEA_VARIANTS, v ≠ "" := by decide

/-- a start request on the gated variant with the pot idle reduces to the
admission test on the freshly incremented count. -/
theorem slash_gated_start_idle (cfg : Config) (cur : Nat) (busy nok : Bool)
    (req : Request) (σ : ServerState)
    (hm : req.method = "BREW") (he : req.endpoint = some HIGH_TRAFFIC_VARIANT)
    (hct : req.contentType.getD "" = TEA_CONTENT_TYPE) (hb : req.body = "start")
    (hbrew : get_brewing_state req σ.pots = false) :
    slash cfg cur busy nok req σ =
      (if (increase_traffic_by_request cur
          (get_request_key req.remote_addr req.endpoint) busy σ.traffic).1
            < cfg.minRequestsCount then
        ⟨⟨424, some ("Traffic too low to brew \"" ++ HIGH_TRAFFIC_VARIANT ++ "\" tea: "
            ++ toString (increase_traffic_by_request cur
              (get_request_key req.remote_addr req.endpoint) busy σ.traffic).1
            ++ "/" ++ toString cfg.minRequestsCount), []⟩,
          ⟨σ.pots, (increase_traffic_by_request cur
            (get_request_key req.remote_addr req.endpoint) busy σ.traffic).2⟩, false⟩
       else
        ⟨⟨202, some "Brewing", []⟩,
          ⟨set_brewing_state req true σ.pots, (increase_traffic_by_request cur
            (get_request_key req.remote_addr req.endpoint) busy σ.traffic).2⟩, false⟩) := by
  simp [slash, hm, he, hct, hb, hbrew, HIGH_TRAFFIC_VARIANT, TEA_VARIANTS, TEA_CONTENT_TYPE]

/-- a start request on a supported non-gated variant with the pot idle
succeeds without touching the traffic window. -/
theorem slash_ungated_start_idle (cfg : Config) (cur : Nat) (busy nok : Bool)
    (req : Request) (σ : ServerState) (v : String)
    (hm : req.method = "BREW") (he : req.endpoint = some v) (hv : v ∈ TEA_VARIANTS)
    (hgate : v ≠ HIGH_TRAFFIC_VARIANT)
    (hct : req.contentType.getD "" = TEA_CONTENT_TYPE) (hb : req.body = "start")
    (hbrew : get_brewing_state req σ.pots = false) :
    slash cfg cur busy nok req σ =
      ⟨⟨202, some "Brewing", []⟩, ⟨set_brewing_state req true σ.pots, σ.traffic⟩, false⟩ := by
  simp [slash, hm, he, hv, hgate, hct, hb, hbrew, variant_ne_empty v hv]

/-- a stop request on a brewing pot with a non-empty Email header succeeds
when the notifier succeeds. -/
theorem slash_stop_brewing_ok (cfg : Config) (cur : Nat) (busy : Bool)
    (req : Request) (σ : ServerState) (v : String)
    (hm : req.method = "BREW") (he : req.endpoint = some v) (hv : v ∈ TEA_VARIANTS)
    (hct : req.contentType.getD "" = TEA_CONTENT_TYPE) (hb : req.body = "stop")
    (hbrew : get_brewing_state req σ.pots = true)
    (hemail : req.email.getD "" ≠ "") :
    slash cfg cur busy true req σ =
      ⟨⟨201, some "Finished", []⟩, ⟨set_brewing_state req false σ.pots, σ.traffic⟩, true⟩ := by
  simp [slash, hm, he, hv, hct, hb, hbrew, hemail, variant_ne_empty v hv]

/-- C2: for every start request on the gated variant with the pot idle, the
handler first increments the traffic counter (the request itself counts: the
returned count is the previous in-second count plus one, whether or not the
request is admitted), and the request is admitted (code 202) iff the returned
count is at least `MIN_REQUESTS_COUNT`; below the threshold it answers 424
with a body reporting the measured count and the threshold, and the brewing
state is unchanged. -/
theorem gated_start_counts_and_gates_traffic (cfg : Config) (cur : Nat)
    (busy nok : Bool) (req : Request) (σ : ServerState)
    (hm : req.method = "BREW") (he : req.endpoint = some HIGH_TRAFFIC_VARIANT)
    (hct : req.contentType.getD "" = TEA_CONTENT_TYPE) (hb : req.body = "start")
    (hbrew : get_brewing_state req σ.pots = false) :
    (increase_traffic_by_request cur (get_request_key req.remote_addr req.endpoint)
        busy σ.traffic).1
      = trafficCount cur (get_request_key req.remote_addr req.endpoint) σ.traffic + 1 ∧
    (slash cfg cur busy nok req σ).state.traffic
      = (increase_traffic_by_request cur (get_request_key req.remote_addr req.endpoint)
          busy σ.traffic).2 ∧
    ((slash cfg cur busy nok req σ).resp.code = 202 ↔
      cfg.minRequestsCount ≤ (increase_traffic_by_request cur
        (get_request_key req.remote_addr req.endpoint) busy σ.traffic).1) ∧
    ((increase_traffic_by_request cur (get_request_key req.remote_addr req.endpoint)
        busy σ.traffic).1 < cfg.minRequestsCount →
      slash cfg cur busy nok req σ =
        ⟨⟨424, some ("Traffic too low to brew \"" ++ HIGH_TRAFFIC_VARIANT ++ "\" tea: "
            ++ toString (increase_traffic_by_request cur
              (get_request_key req.remote_addr req.endpoint) busy σ.traffic).1
            ++ "/" ++ toString cfg.minRequestsCount), []⟩,
          ⟨σ.pots, (increase_traffic_by_request cur
            (get_request_key req.remote_addr req.endpoint) busy σ.traffic).2⟩, false⟩) := by
  have hs := slash_gated_start_idle cfg cur busy nok req σ hm he hct hb hbrew
  refine ⟨increase_traffic_fst _ _ _ _, ?_, ?_, ?_⟩ <;> rw [hs] <;>
    by_cases hlt : (increase_traffic_by_request cur
      (get_request_key req.remote_addr req.endpoint) busy σ.traffic).1
        < cfg.minRequestsCount <;>
    simp [hlt] <;> omega

/-- witness for C2: on an empty window with threshold 2, the first gated start
measures count 1 and is rejected with a 424 response reporting 1/2. -/
theorem gated_start_counts_and_gates_traffic_witness :
    (slash ⟨2, ""⟩ 0 false true
        ⟨"BREW", some "earl-grey", some "message/teapot", none, "start", "1.2.3.4"⟩
        ⟨[], []⟩).resp.code = 202 ↔
      (2 : Nat) ≤ (increase_traffic_by_request 0 (get_request_key "1.2.3.4"
        (some "earl-grey")) false []).1 :=
  (gated_start_counts_and_gates_traffic ⟨2, ""⟩ 0 false true
    ⟨"BREW", some "earl-grey", some "message/teapot", none, "start", "1.2.3.4"⟩
    ⟨[], []⟩ rfl rfl rfl rfl rfl).2.2.1

/-- C4: for every stop request on a supported variant whose pot is brewing,
with a non-empty Email header, if the notifier call fails the transition is
aborted: the handler answers 500 "Something went wrong", the shared state is
exactly the prior state, and the key's brewing state is still `true`. -/
theorem stop_notifier_failure_aborts_transition (cfg : Config) (cur : Nat)
    (busy : Bool) (req : Request) (σ : ServerState) (v : String)
    (hm : req.method = "BREW") (he : req.endpoint = some v) (hv : v ∈ TEA_VARIANTS)
    (hct : req.contentType.getD "" = TEA_CONTENT_TYPE) (hb : req.body = "stop")
    (hbrew : get_brewing_state req σ.pots = true)
    (hemail : req.email.getD "" ≠ "") :
    slash cfg cur busy false req σ
      = ⟨⟨500, some "Something went wrong", []⟩, σ, true⟩ ∧
    get_brewing_state req (slash cfg cur busy false req σ).state.pots = true := by
  have hs : slash cfg cur busy false req σ
      = ⟨⟨500, some "Something went wrong", []⟩, σ, true⟩ := by
    simp [slash, hm, he, hv, hct, hb, hbrew, hemail, variant_ne_empty v hv]
  exact ⟨hs, by rw [hs]; exact hbrew⟩

/-- witness for C4: a failing notifier on a brewing english-breakfast pot
leaves the pot brewing and reports the internal error. -/
theorem stop_notifier_failure_aborts_transition_witness :
    slash ⟨2, ""⟩ 0 false false
        ⟨"BREW", some "english-breakfast", some "message/teapot", some "a@b.c", "stop", "1.2.3.4"⟩
        ⟨[("1.2.3.4/english-breakfast", true)], []⟩
      = ⟨⟨500, some "Something went wrong", []⟩,
          ⟨[("1.2.3.4/english-breakfast", true)], []⟩, true⟩ :=
  (stop_notifier_failure_aborts_transition ⟨2, ""⟩ 0 false
    ⟨"BREW", some "english-breakfast", some "message/teapot", some "a@b.c", "stop", "1.2.3.4"⟩
    ⟨[("1.2.3.4/english-breakfast", true)], []⟩ "english-breakfast"
    rfl rfl (by decide) rfl rfl (by decide) (by decide)).1

/-- C5: every rejected brew-state transition on a supported variant leaves the
whole shared state unchanged and reports the specified outcome: a start while
brewing answers 503 "Pot is busy"; a stop while idle answers 400 "No beverage
is being brewed by this pot"; a stop while brewing with an absent or empty
Email header answers 400 asking for the header — and in each case the notifier
is not invoked. -/
theorem rejected_transitions_leave_state_unchanged (cfg : Config) (cur : Nat)
    (busy nok : Bool) (req : Request) (σ : ServerState) (v : String)
    (hm : req.method = "BREW") (he : req.endpoint = some v) (hv : v ∈ TEA_VARIANTS)
    (hct : req.contentType.getD "" = TEA_CONTENT_TYPE) :
    (req.body = "start" → get_brewing_state req σ.pots = true →
      slash cfg cur busy nok req σ = ⟨⟨503, some "Pot is busy", []⟩, σ, false⟩) ∧
    (req.body = "stop" → get_brewing_state req σ.pots = false →
      slash cfg cur busy nok req σ
        = ⟨⟨400, some "No beverage is being brewed by this pot", []⟩, σ, false⟩) ∧
    (req.body = "stop" → get_brewing_state req σ.pots = true → req.email.getD "" = "" →
      slash cfg cur busy nok req σ
        = ⟨⟨400, some "Please set \"Email\" header in your request to your email address",
            []⟩, σ, false⟩) := by
  refine ⟨fun hb hbrew => ?_, fun hb hbrew => ?_, fun hb hbrew hemail => ?_⟩
  · simp [slash, hm, he, hv, hct, hb, hbrew, variant_ne_empty v hv]
  · simp [slash, hm, he, hv, hct, hb, hbrew, variant_ne_empty v hv]
  · simp [slash, hm, he, hv, hct, hb, hbrew, hemail, variant_ne_empty v hv]

/-- witness for C5: a stop on a never-started earl-grey pot is rejected with
400 and an unchanged state. -/
theorem rejected_transitions_leave_state_unchanged_witness :
    slash ⟨2, ""⟩ 0 false true
        ⟨"BREW", some "earl-grey", some "message/teapot", none, "stop", "1.2.3.4"⟩
        ⟨[], []⟩
      = ⟨⟨400, some "No beverage is being brewed by this pot", []⟩, ⟨[], []⟩, false⟩ :=
  (rejected_transitions_leave_state_unchanged ⟨2, ""⟩ 0 false true
    ⟨"BREW", some "earl-grey", some "message/teapot", none, "stop", "1.2.3.4"⟩
    ⟨[], []⟩ "earl-grey" rfl rfl (by decide) rfl).2.1 rfl rfl

/-- C8 counterexample: a BREW request on the path of an unsupported variant
("coffee") with a mismatched Content-Type is answered 503 with no headers —
not 400, and with no Alternates header — because the variant check precedes
the content-type check. -/
theorem unknown_variant_wrong_content_type_counterexample :
    (slash ⟨2, ""⟩ 0 false true
        ⟨"BREW", some "coffee", some "text/plain", none, "start", "1.2.3.4"⟩
        ⟨[], []⟩).resp.code ≠ 400 ∧
    (slash ⟨2, ""⟩ 0 false true
        ⟨"BREW", some "coffee", some "text/plain", none, "start", "1.2.3.4"⟩
        ⟨[], []⟩).resp
      = ⟨503, some "\"coffee\" is not supported for this pot", []⟩ := by
  constructor
  · decide
  · decide

/-- C8 (amended): for every BREW request on the path of a supported variant
whose Content-Type header differs from the teapot content type, the response
is 400 carrying the supported-variant list in the Alternates header, and the
state is unchanged. -/
theorem supported_variant_wrong_content_type_bad_request (cfg : Config)
    (cur : Nat) (busy nok : Bool) (req : Request) (σ : ServerState) (v : String)
    (hm : req.method = "BREW") (he : req.endpoint = some v) (hv : v ∈ TEA_VARIANTS)
    (hct : req.contentType.getD "" ≠ TEA_CONTENT_TYPE) :
    slash cfg cur busy nok req σ
      = ⟨⟨400, none, [("Alternates", TEA_ALTERNATES)]⟩, σ, false⟩ := by
  simp [slash, hm, he, hv, hct, variant_ne_empty v hv]

/-- witness for C8 (amended): a start on earl-grey with Content-Type
text/plain is answered 400 with the Alternates header. -/
theorem supported_variant_wrong_content_type_bad_request_witness :
    slash ⟨2, ""⟩ 0 false true
        ⟨"BREW", some "earl-grey", some "text/plain", none, "start", "1.2.3.4"⟩
        ⟨[], []⟩
      = ⟨⟨400, none, [("Alternates", TEA_ALTERNATES)]⟩, ⟨[], []⟩, false⟩ :=
  supported_variant_wrong_content_type_bad_request ⟨2, ""⟩ 0 false true
    ⟨"BREW", some "earl-grey", some "text/plain", none, "start", "1.2.3.4"⟩
    ⟨[], []⟩ "earl-grey" rfl rfl (by decide) (by decide)

/-- a start request on the pot of a supported variant that is idle sets the
brewing flag whenever the handler answers 202. -/
theorem slash_start_idle_202_pots (cfg : Config) (cur : Nat) (busy nok : Bool)
    (req : Request) (σ : ServerState) (v : String)
    (hm : req.method = "BREW") (he : req.endpoint = some v) (hv : v ∈ TEA_VARIANTS)
    (hct : req.contentType.getD "" = TEA_CONTENT_TYPE) (hb : req.body = "start")
    (hbrew : get_brewing_state req σ.pots = false)
    (h202 : (slash cfg cur busy nok req σ).resp.code = 202) :
    (slash cfg cur busy nok req σ).state.pots = set_brewing_state req true σ.pots := by
  by_cases hg : v = HIGH_TRAFFIC_VARIANT
  · subst hg
    have hs := slash_gated_start_idle cfg cur busy nok req σ hm he hct hb hbrew
    rw [hs] at h202 ⊢
    by_cases hlt : (increase_traffic_by_request cur
        (get_request_key req.remote_addr req.endpoint) busy σ.traffic).1
          < cfg.minRequestsCount
    · rw [if_pos hlt] at h202
      simp at h202
    · rw [if_neg hlt]
  · rw [slash_ungated_start_idle cfg cur busy nok req σ v hm he hv hg hct hb hbrew]

/-- a start request on the pot of a supported variant that is idle is answered
202 provided the traffic gate (relevant only for the gated variant) passes. -/
theorem slash_start_idle_admitted (cfg : Config) (cur : Nat) (busy nok : Bool)
    (req : Request) (σ : ServerState) (v : String)
    (hm : req.method = "BREW") (he : req.endpoint = some v) (hv : v ∈ TEA_VARIANTS)
    (hct : req.contentType.getD "" = TEA_CONTENT_TYPE) (hb : req.body = "start")
    (hbrew : get_brewing_state req σ.pots = false)
    (hgate : v = HIGH_TRAFFIC_VARIANT →
      cfg.minRequestsCount ≤ (increase_traffic_by_request cur
        (get_request_key req.remote_addr req.endpoint) busy σ.traffic).1) :
    (slash cfg cur busy nok req σ).resp.code = 202 := by
  by_cases hg : v = HIGH_TRAFFIC_VARIANT
  · have hle := hgate hg
    subst hg
    rw [slash_gated_start_idle cfg cur busy nok req σ hm he hct hb hbrew,
      if_neg (not_lt.mpr hle)]
  · rw [slash_ungated_start_idle cfg cur busy nok req σ v hm he hv hg hct hb hbrew]

/-- C9: the traffic window is mutated only by a BREW start request on the
gated variant whose content type matches and whose pot is idle; any request
missing one of those conditions — GET on any path, non-gated starts, busy
starts, content-type mismatches, unknown variants, stops, malformed bodies,
other verbs — leaves the traffic window unchanged. -/
theorem traffic_window_frame (cfg : Config) (cur : Nat) (busy nok : Bool)
    (req : Request) (σ : ServerState)
    (h : ¬(req.method = "BREW" ∧ req.endpoint.getD "" = HIGH_TRAFFIC_VARIANT ∧
          req.contentType.getD "" = TEA_CONTENT_TYPE ∧ req.body = "start" ∧
          get_brewing_state req σ.pots = false)) :
    (slash cfg cur busy nok req σ).state.traffic = σ.traffic := by
  by_cases h1 : req.method = "GET"
  · simp [slash, h1]
  by_cases h2 : req.method = "BREW"
  swap
  · simp [slash, h1, h2]
  by_cases h3 : req.endpoint.getD "" = ""
  · simp [slash, h1, h2, h3]
  by_cases h4 : req.endpoint.getD "" ∈ TEA_VARIANTS
  swap
  · simp [slash, h1, h2, h3, h4]
  by_cases h5 : req.contentType.getD "" = TEA_CONTENT_TYPE
  swap
  · simp [slash, h1, h2, h3, h4, h5]
  by_cases h6 : req.body = "start"
  · by_cases h7 : get_brewing_state req σ.pots = true
    · simp [slash, h1, h2, h3, h4, h5, h6, h7]
    · have h8 : req.endpoint.getD "" ≠ HIGH_TRAFFIC_VARIANT := by
        intro hE
        exact h ⟨h2, hE, h5, h6, by simpa using h7⟩
      simp [slash, h1, h2, h3, h4, h5, h6, h7, h8]
  by_cases h9 : req.body = "stop"
  swap
  · simp [slash, h1, h2, h3, h4, h5, h6, h9]
  by_cases h10 : get_brewing_state req σ.pots = true
  swap
  · simp [slash, h1, h2, h3, h4, h5, h6, h9, h10]
  by_cases h11 : req.email.getD "" = ""
  · simp [slash, h1, h2, h3, h4, h5, h6, h9, h10, h11]
  · by_cases h12 : nok = true <;>
      simp [slash, h1, h2, h3, h4, h5, h6, h9, h10, h11, h12]

/-- witness for C9: a GET request leaves a non-trivial traffic window
untouched. -/
theorem traffic_window_frame_witness :
    (slash ⟨2, "home"⟩ 9 false true
        ⟨"GET", none, none, none, "", "1.2.3.4"⟩
        ⟨[], [(8, [("k", 4)])]⟩).state.traffic = [(8, [("k", 4)])] :=
  traffic_window_frame ⟨2, "home"⟩ 9 false true
    ⟨"GET", none, none, none, "", "1.2.3.4"⟩
    ⟨[], [(8, [("k", 4)])]⟩ (by intro hc; exact absurd hc.1 (by decide))

/-- C6: a successful start followed by a successful stop (non-empty Email
header, notifier succeeds) returns the key's pot to idle, and a subsequent
start on the same key is admitted again, subject only to the traffic gate for
the gated variant. -/
theorem start_stop_roundtrip_returns_to_idle (cfg : Config)
    (cur₁ cur₂ cur₃ : Nat) (b₁ b₂ b₃ n₁ n₃ : Bool) (v : String)
    (startReq stopReq : Request) (σ : ServerState)
    (hv : v ∈ TEA_VARIANTS)
    (hm1 : startReq.method = "BREW") (he1 : startReq.endpoint = some v)
    (hct1 : startReq.contentType.getD "" = TEA_CONTENT_TYPE)
    (hb1 : startReq.body = "start")
    (hm2 : stopReq.method = "BREW") (he2 : stopReq.endpoint = some v)
    (hct2 : stopReq.contentType.getD "" = TEA_CONTENT_TYPE)
    (hb2 : stopReq.body = "stop")
    (haddr : stopReq.remote_addr = startReq.remote_addr)
    (hemail : stopReq.email.getD "" ≠ "")
    (hidle : get_brewing_state startReq σ.pots = false)
    (h202 : (slash cfg cur₁ b₁ n₁ startReq σ).resp.code = 202) :
    ∀ σ₁ res₂, σ₁ = (slash cfg cur₁ b₁ n₁ startReq σ).state →
      res₂ = slash cfg cur₂ b₂ true stopReq σ₁ →
      res₂.resp.code = 201 ∧
      get_brewing_state startReq res₂.state.pots = false ∧
      ((v = HIGH_TRAFFIC_VARIANT →
          cfg.minRequestsCount ≤ (increase_traffic_by_request cur₃
            (get_request_key startReq.remote_addr startReq.endpoint) b₃
            res₂.state.traffic).1) →
        (slash cfg cur₃ b₃ n₃ startReq res₂.state).resp.code = 202) := by
  intro σ₁ res₂ hσ₁ hres₂
  have hkey : get_request_key stopReq.remote_addr stopReq.endpoint
      = get_request_key startReq.remote_addr startReq.endpoint := by
    rw [haddr, he1, he2]
  have hσ₁pots : σ₁.pots = set_brewing_state startReq true σ.pots := by
    rw [hσ₁]
    exact slash_start_idle_202_pots cfg cur₁ b₁ n₁ startReq σ v
      hm1 he1 hv hct1 hb1 hidle h202
  have hbrew₂ : get_brewing_state stopReq σ₁.pots = true := by
    rw [hσ₁pots]
    unfold get_brewing_state set_brewing_state
    rw [hkey, dictGet_dictSet_self]
    rfl
  have hres₂eq : res₂ = ⟨⟨201, some "Finished", []⟩,
      ⟨set_brewing_state stopReq false σ₁.pots, σ₁.traffic⟩, true⟩ := by
    rw [hres₂]
    exact slash_stop_brewing_ok cfg cur₂ b₂ stopReq σ₁ v
      hm2 he2 hv hct2 hb2 hbrew₂ hemail
  have hidle₃ : get_brewing_state startReq res₂.state.pots = false := by
    rw [hres₂eq]
    unfold get_brewing_state set_brewing_state
    rw [← hkey, dictGet_dictSet_self]
    rfl
  refine ⟨by rw [hres₂eq], hidle₃, fun hgate => ?_⟩
  exact slash_start_idle_admitted cfg cur₃ b₃ n₃ startReq res₂.state v
    hm1 he1 hv hct1 hb1 hidle₃ hgate

/-- witness for C6: starting and stopping an english-breakfast pot from an
empty state returns it to idle and lets a third start succeed. -/
theorem start_stop_roundtrip_returns_to_idle_witness :
    (slash ⟨2, ""⟩ 2 false true
      ⟨"BREW", some "english-breakfast", some "message/teapot", none, "start", "1.2.3.4"⟩
      (slash ⟨2, ""⟩ 1 false true
        ⟨"BREW", some "english-breakfast", some "message/teapot", some "a@b.c", "stop", "1.2.3.4"⟩
        (slash ⟨2, ""⟩ 0 false true
          ⟨"BREW", some "english-breakfast", some "message/teapot", none, "start", "1.2.3.4"⟩
          ⟨[], []⟩).state).state).resp.code = 202 :=
  ((start_stop_roundtrip_returns_to_idle ⟨2, ""⟩ 0 1 2 false false false true true
    "english-breakfast"
    ⟨"BREW", some "english-breakfast", some "message/teapot", none, "start", "1.2.3.4"⟩
    ⟨"BREW", some "english-breakfast", some "message/teapot", some "a@b.c", "stop", "1.2.3.4"⟩
    ⟨[], []⟩ (by decide) rfl rfl rfl rfl rfl rfl rfl rfl rfl (by decide) rfl (by decide)
    _ _ rfl rfl).2.2 (by intro hc; exact absurd hc (by decide)))

/-- splitting at a separator absent from both left parts is unambiguous. -/
theorem append_sep_inj {α : Type} (sep : α) :
    ∀ (l₁ l₂ r₁ r₂ : List α), sep ∉ l₁ → sep ∉ l₂ →
      l₁ ++ sep :: r₁ = l₂ ++ sep :: r₂ → l₁ = l₂ ∧ r₁ = r₂ := by
  intro l₁
  induction l₁ with
  | nil =>
    intro l₂ r₁ r₂ h1 h2 heq
    cases l₂ with
    | nil => simpa using heq
    | cons c tl =>
      exfalso
      rw [List.nil_append, List.cons_append, List.cons.injEq] at heq
      exact h2 (heq.1 ▸ List.mem_cons_self _ _)
  | cons a tl ih =>
    intro l₂ r₁ r₂ h1 h2 heq
    cases l₂ with
    | nil =>
      exfalso
      rw [List.nil_append, List.cons_append, List.cons.injEq] at heq
      exact h1 (heq.1 ▸ List.mem_cons_self _ _)
    | cons b tl₂ =>
      rw [List.cons_append, List.cons_append, List.cons.injEq] at heq
      have hrec := ih tl₂ r₁ r₂ (fun hm => h1 (List.mem_cons_of_mem _ hm))
        (fun hm => h2 (List.mem_cons_of_mem _ hm)) heq.2
      exact ⟨by rw [heq.1, hrec.1], hrec.2⟩

/-- C10: the request key resolver flattens `(client_address, variant)` into
the single string `client_address ++ "/" ++ variant`; an absent variant yields
the same key as the empty-string variant; two requests share a key exactly
when they agree on both address and variant, but only under the assumption
that client addresses contain no `/` — without it distinct pairs collide, as
`("a/b", "c")` and `("a", "b/c")` show. -/
theorem get_request_key_flattening :
    (∀ a ep, get_request_key a (some ep) = a ++ "/" ++ ep) ∧
    (∀ a, get_request_key a none = get_request_key a (some "")) ∧
    (∀ a₁ v₁ a₂ v₂ : String, ('/' : Char) ∉ a₁.data → ('/' : Char) ∉ a₂.data →
      get_request_key a₁ (some v₁) = get_request_key a₂ (some v₂) →
      a₁ = a₂ ∧ v₁ = v₂) ∧
    (get_request_key "a/b" (some "c") = get_request_key "a" (some "b/c") ∧
      ("a/b" : String) ≠ "a") := by
  refine ⟨fun a ep => rfl, fun a => rfl, ?_, by decide, by decide⟩
  intro a₁ v₁ a₂ v₂ h1 h2 heq
  have hd := congrArg String.data heq
  simp only [get_request_key, Option.getD_some, String.data_append,
    List.append_assoc] at hd
  have hsep : ("/" : String).data ++ v₁.data = '/' :: v₁.data := rfl
  have hsep2 : ("/" : String).data ++ v₂.data = '/' :: v₂.data := rfl
  rw [hsep, hsep2] at hd
  have hres := append_sep_inj '/' a₁.data a₂.data v₁.data v₂.data h1 h2 hd
  exact ⟨String.ext hres.1, String.ext hres.2⟩

/-- witness for C10: two slash-free addresses with equal keys agree on both
components. -/
theorem get_request_key_flattening_witness :
    ("10.0.0.1" : String) = "10.0.0.1" ∧ ("earl-grey" : String) = "earl-grey" :=
  get_request_key_flattening.2.2.1 "10.0.0.1" "earl-grey" "10.0.0.1" "earl-grey"
    (by decide) (by decide) rfl

end Teapot
